import Mathlib

/-!
Verification development for the map-poster HTTP adapter
(`src/api/fastapi.py`).  The file embeds, as pure Lean functions:

* the pydantic request model `CreateMapRequest` together with the
  omitted / null / value distinction of incoming JSON fields;
* the `create_map` handler, parameterised by the outcome of the
  lazy import and by a record of the collaborator functions of the
  poster module (each of which may raise, modelled with `Except`);
* the root probe handler;
* a small interleaving semantics for two concurrent requests acting on
  the module-global `THEME` slot.

Python exceptions are modelled by `PyExn`, carrying `str(e)` and the
traceback text that `traceback.format_exc()` would yield at the catch
site.
-/

/-- A Python exception as the handler observes it: its string
representation `str(e)` and the diagnostic trace available where it is
caught. -/
structure PyExn where
  msg : String
  trace : String
deriving DecidableEq, Repr

/-- A JSON field of an incoming request body: absent, explicit `null`,
or a present value. -/
inductive FieldVal (α : Type) where
  | missing : FieldVal α
  | null : FieldVal α
  | val : α → FieldVal α
deriving DecidableEq, Repr

/-- The raw body of a POST `/create-map` request, before pydantic
validation. -/
structure RawRequest where
  city : FieldVal String
  country : FieldVal String
  theme : FieldVal String
  distance : FieldVal Int
  format : FieldVal String
deriving DecidableEq, Repr

/-- The validated request model, mirroring `CreateMapRequest` in
`src/api/fastapi.py`: `city, country : str` required, `theme : Optional[str]`
defaulting to `"feature_based"`, `distance : Optional[int]` defaulting to
`29000`, `format : Optional[str]` defaulting to `"png"`. -/
structure CreateMapRequest where
  city : String
  country : String
  theme : Option String
  distance : Option Int
  format : Option String
deriving DecidableEq, Repr

/-- Validation of a required `str` field (`Field(...)`): a missing field
or an explicit `null` is rejected; any string value, the empty string
included, is accepted. -/
def parseRequired : FieldVal String → Except Unit String
  | FieldVal.val s => Except.ok s
  | _ => Except.error ()

/-- Validation of an `Optional[τ]` field with a non-`None` default: the
default applies only when the field is omitted; an explicit `null`
parses to `none`; a present value parses to `some` of it, with no
further constraint. -/
def parseOptional {α : Type} (dflt : α) : FieldVal α → Except Unit (Option α)
  | FieldVal.missing => Except.ok (some dflt)
  | FieldVal.null => Except.ok none
  | FieldVal.val a => Except.ok (some a)

/-- Pydantic validation of the whole request body following the field
declarations of `CreateMapRequest` in the source. -/
def parseCreateMapRequest (raw : RawRequest) : Except Unit CreateMapRequest := do
  let city ← parseRequired raw.city
  let country ← parseRequired raw.country
  let theme ← parseOptional "feature_based" raw.theme
  let distance ← parseOptional 29000 raw.distance
  let format ← parseOptional "png" raw.format
  Except.ok { city := city, country := country, theme := theme,
              distance := distance, format := format }

/-- The collaborator surface of the `create_map_poster` module as the
handler consumes it for one request.  `Theme` and `Coord` are the
(to this layer) abstract types of loaded theme objects and coordinate
pairs.  `get_available_themes` is the outcome of the single call the
handler makes per request.  Argument types follow the call sites in the
handler: `req.theme`, `req.distance` and `req.format` are passed as the
optional values pydantic produced. -/
structure PosterModule (Theme Coord : Type) where
  get_available_themes : Except PyExn (List String)
  load_theme : Option String → Except PyExn Theme
  get_coordinates : String → String → Except PyExn Coord
  generate_output_filename : String → Option String → Option String → Except PyExn String
  create_poster : String → String → Coord → Option Int → String → Option String → Except PyExn Unit

/-- The body of an HTTPException `detail`: either a plain string or the
`{"error": ..., "traceback": ...}` object. -/
inductive Detail where
  | str : String → Detail
  | errTrace : String → String → Detail
deriving DecidableEq, Repr

/-- What the handler produces for one request: a success body
`{"output_file": p}`, an HTTPException it raised itself (status and
detail), or an exception that escaped the handler unconverted. -/
inductive Response where
  | ok : String → Response
  | httpError : Nat → Detail → Response
  | unhandled : PyExn → Response
deriving DecidableEq, Repr

/-- Python string interpolation of an `Optional[str]` value inside an
f-string: `None` prints as `"None"`, a string prints as itself. -/
def pyStr : Option String → String
  | none => "None"
  | some s => s

/-- The membership test `req.theme in available` with `req.theme` an
`Optional[str]` and `available` a list of theme names: `None` is never
an element of a list of strings. -/
def themeFound : Option String → List String → Bool
  | none, _ => false
  | some s, avail => avail.contains s

/-- The body of the handler's `try` block: set the module-global theme
via `load_theme`, resolve coordinates, compute the output filename, run
`create_poster` on it, and yield the output path; the first exception
aborts the chain. -/
def runPipeline {Theme Coord : Type} (poster : PosterModule Theme Coord)
    (req : CreateMapRequest) : Except PyExn String := do
  let _theme ← poster.load_theme req.theme
  let point ← poster.get_coordinates req.city req.country
  let out_path ← poster.generate_output_filename req.city req.theme req.format
  let _ ← poster.create_poster req.city req.country point req.distance out_path req.format
  Except.ok out_path

/-- The POST `/create-map` handler.  `importResult` is the outcome of
importing `create_map_poster`: on failure the handler raises a 500 with
the underlying message.  It calls `get_available_themes` outside any `try`:
an exception there escapes the handler unconverted.  An unavailable
theme yields the 400 detail string.  The pipeline runs inside `try`;
its exception is converted to a 500 carrying `str(e)` and the trace. -/
def create_map {Theme Coord : Type}
    (importResult : Except PyExn (PosterModule Theme Coord))
    (req : CreateMapRequest) : Response :=
  match importResult with
  | Except.error e =>
      Response.httpError 500 (Detail.str ("Failed to import poster module: " ++ e.msg))
  | Except.ok poster =>
      match poster.get_available_themes with
      | Except.error e => Response.unhandled e
      | Except.ok available =>
          if themeFound req.theme available then
            match runPipeline poster req with
            | Except.ok out_path => Response.ok out_path
            | Except.error e =>
                Response.httpError 500 (Detail.errTrace e.msg e.trace)
          else
            Response.httpError 400 (Detail.str
              ("Theme '" ++ pyStr req.theme ++ "' not found. Available: "
                ++ String.intercalate ", " available))

/-- The GET `/` handler's body. -/
structure MessageBody where
  message : String
deriving DecidableEq, Repr

/-- The GET `/` handler: constant, no input, no side effect. -/
def root : MessageBody := { message := "Hello World" }

/-! ### Interleaving model of two concurrent requests

Two requests A and B each perform, in program order, the assignment
`poster.THEME = poster.load_theme(req.theme)` and then the render step
that reads the module-global `THEME`.  The global is a single shared
slot; an interleaving is any merge of the two per-request sequences. -/

/-- One step of a concurrent request: set the global theme slot, or run
the render, which observes the slot's current content. -/
inductive CStep where
  | setA : CStep
  | setB : CStep
  | renderA : CStep
  | renderB : CStep
deriving DecidableEq, Repr

/-- The shared state: the module-global theme slot, and, for each
request, the theme its render observed (if the render has run). -/
structure ConcState where
  themeGlobal : Option String
  observedA : Option (Option String)
  observedB : Option (Option String)
deriving DecidableEq, Repr

/-- Initial state: no theme set, neither render run. -/
def initState : ConcState :=
  { themeGlobal := none, observedA := none, observedB := none }

/-- Effect of one step, with `themeA`, `themeB` the two requested
themes. -/
def execStep (themeA themeB : String) : CStep → ConcState → ConcState
  | CStep.setA, s => { s with themeGlobal := some themeA }
  | CStep.setB, s => { s with themeGlobal := some themeB }
  | CStep.renderA, s => { s with observedA := some s.themeGlobal }
  | CStep.renderB, s => { s with observedB := some s.themeGlobal }

/-- Run a sequence of steps from a state. -/
def execTrace (themeA themeB : String) (steps : List CStep) (s : ConcState) : ConcState :=
  steps.foldl (fun st step => execStep themeA themeB step st) s

/-- All merges of two sequences that keep each sequence's internal
order, structurally recursive on a fuel bound covering both lists. -/
def interleavingsFuel {α : Type} : Nat → List α → List α → List (List α)
  | 0, xs, ys => [xs ++ ys]
  | _ + 1, [], ys => [ys]
  | _ + 1, x :: xs, [] => [x :: xs]
  | n + 1, x :: xs, y :: ys =>
      (interleavingsFuel n xs (y :: ys)).map (fun zs => x :: zs)
        ++ (interleavingsFuel n (x :: xs) ys).map (fun zs => y :: zs)

/-- All merges of two sequences that keep each sequence's internal
order: the possible schedules of two concurrent requests. -/
def interleavings {α : Type} (xs ys : List α) : List (List α) :=
  interleavingsFuel (xs.length + ys.length) xs ys

/-- The schedules of the two requests: each performs its set step before
its render step. -/
def schedules : List (List CStep) :=
  interleavings [CStep.setA, CStep.renderA] [CStep.setB, CStep.renderB]

/-- Whether, in a schedule, step `mid` falls strictly between steps `s`
and `r` (all three occurring once). -/
def interposed (s mid r : CStep) (steps : List CStep) : Bool :=
  steps.indexOf s < steps.indexOf mid && steps.indexOf mid < steps.indexOf r

/-- Reduction of `Except` bind on a success value. -/
theorem exceptBind_ok {ε α β : Type} (a : α) (f : α → Except ε β) :
    (Except.ok a : Except ε α) >>= f = f a := rfl

/-- Reduction of `Except` bind on an exception. -/
theorem exceptBind_error {ε α β : Type} (e : ε) (f : α → Except ε β) :
    (Except.error e : Except ε α) >>= f = Except.error e := rfl

/-! ### Concrete collaborator instances used by witnesses and
counterexamples -/

/-- A poster module on which every collaborator call succeeds;
`generate_output_filename` builds a path from city, theme and format. -/
def posterOK : PosterModule Unit Unit :=
  { get_available_themes := Except.ok ["feature_based", "minimal"]
    load_theme := fun _ => Except.ok ()
    get_coordinates := fun _ _ => Except.ok ()
    generate_output_filename := fun city theme fmt =>
      Except.ok (city ++ "_" ++ pyStr theme ++ "." ++ pyStr fmt)
    create_poster := fun _ _ _ _ _ _ => Except.ok () }

/-- A fully-defaulted valid request for Paris. -/
def reqParis : CreateMapRequest :=
  { city := "Paris", country := "France", theme := some "feature_based",
    distance := some 29000, format := some "png" }

/-- C1: for every request with a valid theme on which all collaborator
calls succeed, `create_map` returns exactly `Response.ok p` where `p` is
exactly the string `generate_output_filename(city, theme, format)`
produced, and this same `p` is the output-path argument at which
`create_poster` is invoked (hypothesis `hrender`). -/
theorem create_map_success {Theme Coord : Type}
    (poster : PosterModule Theme Coord) (req : CreateMapRequest)
    (avail : List String) (t : Theme) (point : Coord) (p : String)
    (hav : poster.get_available_themes = Except.ok avail)
    (hth : themeFound req.theme avail = true)
    (hload : poster.load_theme req.theme = Except.ok t)
    (hgeo : poster.get_coordinates req.city req.country = Except.ok point)
    (hgen : poster.generate_output_filename req.city req.theme req.format = Except.ok p)
    (hrender : poster.create_poster req.city req.country point req.distance p req.format
      = Except.ok ()) :
    create_map (Except.ok poster) req = Response.ok p := by
  simp [create_map, runPipeline, hav, hth, hload, hgeo, hgen, hrender,
    exceptBind_ok, exceptBind_error]

/-- Witness for C1 at a concrete module and request. -/
theorem create_map_success_witness :
    create_map (Except.ok posterOK) reqParis = Response.ok "Paris_feature_based.png" :=
  create_map_success posterOK reqParis ["feature_based", "minimal"] () ()
    "Paris_feature_based.png" rfl (by decide) rfl rfl rfl rfl

/-- C2: for every request whose theme is not in the set reported by
`get_available_themes`, `create_map` fails with a 400 whose detail is
the string listing the actual available themes, whatever the other
fields hold. -/
theorem create_map_unknown_theme {Theme Coord : Type}
    (poster : PosterModule Theme Coord) (req : CreateMapRequest) (avail : List String)
    (hav : poster.get_available_themes = Except.ok avail)
    (hth : themeFound req.theme avail = false) :
    create_map (Except.ok poster) req =
      Response.httpError 400 (Detail.str
        ("Theme '" ++ pyStr req.theme ++ "' not found. Available: "
          ++ String.intercalate ", " avail)) := by
  simp [create_map, hav, hth]

/-- Witness for C2 at a concrete module and an unknown theme. -/
theorem create_map_unknown_theme_witness :
    create_map (Except.ok posterOK)
      { city := "Paris", country := "France", theme := some "neon",
        distance := some 29000, format := some "png" } =
      Response.httpError 400
        (Detail.str "Theme 'neon' not found. Available: feature_based, minimal") := by
  simpa using create_map_unknown_theme posterOK
    { city := "Paris", country := "France", theme := some "neon",
      distance := some 29000, format := some "png" }
    ["feature_based", "minimal"] rfl (by decide)

/-- C3: for every request, if the import of the poster module raises
`e`, `create_map` fails with a 500 whose detail is
`"Failed to import poster module: <str(e)>"`; the result is this same
value for every request and mentions no collaborator, so theme
validation (and every collaborator call) is never reached. -/
theorem create_map_import_failure {Theme Coord : Type} (e : PyExn) (req : CreateMapRequest) :
    create_map (Except.error e : Except PyExn (PosterModule Theme Coord)) req =
      Response.httpError 500 (Detail.str ("Failed to import poster module: " ++ e.msg)) := rfl

/-- C4: for every request that passes the import check and theme
validation, if any of `load_theme`, `get_coordinates`,
`generate_output_filename` or `create_poster` raises `e` (each case one
disjunct of `hfail`, the earlier calls having succeeded), `create_map`
fails with a 500 whose detail is the object carrying `str(e)` as its
error field and the diagnostic trace. -/
theorem create_map_pipeline_failure {Theme Coord : Type}
    (poster : PosterModule Theme Coord) (req : CreateMapRequest)
    (avail : List String) (e : PyExn)
    (hav : poster.get_available_themes = Except.ok avail)
    (hth : themeFound req.theme avail = true)
    (hfail : poster.load_theme req.theme = Except.error e
      ∨ (∃ t, poster.load_theme req.theme = Except.ok t
          ∧ poster.get_coordinates req.city req.country = Except.error e)
      ∨ (∃ t point, poster.load_theme req.theme = Except.ok t
          ∧ poster.get_coordinates req.city req.country = Except.ok point
          ∧ poster.generate_output_filename req.city req.theme req.format = Except.error e)
      ∨ (∃ t point p, poster.load_theme req.theme = Except.ok t
          ∧ poster.get_coordinates req.city req.country = Except.ok point
          ∧ poster.generate_output_filename req.city req.theme req.format = Except.ok p
          ∧ poster.create_poster req.city req.country point req.distance p req.format
              = Except.error e)) :
    create_map (Except.ok poster) req =
      Response.httpError 500 (Detail.errTrace e.msg e.trace) := by
  have hrun : runPipeline poster req = Except.error e := by
    rcases hfail with h | ⟨t, h1, h2⟩ | ⟨t, point, h1, h2, h3⟩ | ⟨t, point, p, h1, h2, h3, h4⟩ <;>
      simp [runPipeline, exceptBind_ok, exceptBind_error, *]
  simp [create_map, hav, hth, hrun]

/-- A poster module whose rendering call raises. -/
def posterRenderFail : PosterModule Unit Unit :=
  { get_available_themes := Except.ok ["feature_based", "minimal"]
    load_theme := fun _ => Except.ok ()
    get_coordinates := fun _ _ => Except.ok ()
    generate_output_filename := fun city theme fmt =>
      Except.ok (city ++ "_" ++ pyStr theme ++ "." ++ pyStr fmt)
    create_poster := fun _ _ _ _ _ _ =>
      Except.error { msg := "render failed", trace := "Traceback: render failed" } }

/-- Witness for C4: the rendering step raises. -/
theorem create_map_pipeline_failure_witness :
    create_map (Except.ok posterRenderFail) reqParis =
      Response.httpError 500 (Detail.errTrace "render failed" "Traceback: render failed") :=
  create_map_pipeline_failure posterRenderFail reqParis ["feature_based", "minimal"]
    { msg := "render failed", trace := "Traceback: render failed" }
    rfl (by decide)
    (Or.inr (Or.inr (Or.inr ⟨(), (), "Paris_feature_based.png", rfl, rfl, rfl, rfl⟩)))

/-- A poster module whose `get_available_themes` raises. -/
def posterThemesRaise : PosterModule Unit Unit :=
  { get_available_themes :=
      Except.error { msg := "themes dir missing", trace := "Traceback: themes dir missing" }
    load_theme := fun _ => Except.ok ()
    get_coordinates := fun _ _ => Except.ok ()
    generate_output_filename := fun _ _ _ => Except.ok "out.png"
    create_poster := fun _ _ _ _ _ _ => Except.ok () }

/-- C5 counterexample: an exception raised by `get_available_themes`
after the import check succeeds escapes `create_map` unconverted — it is
not turned into a structured HTTP error, refuting the claim that every
such exception is caught at the top of the handler. -/
theorem create_map_avail_uncaught_cex :
    create_map (Except.ok posterThemesRaise) reqParis =
      Response.unhandled { msg := "themes dir missing", trace := "Traceback: themes dir missing" }
    ∧ Response.unhandled
        { msg := "themes dir missing", trace := "Traceback: themes dir missing" } ≠
      Response.httpError 500
        (Detail.errTrace "themes dir missing" "Traceback: themes dir missing") := by
  exact ⟨rfl, by simp⟩

/-- C5 amended: the catch boundary is the `try` block, not the whole
post-import handler.  An exception inside the pipeline (`load_theme`,
`get_coordinates`, `generate_output_filename`, `create_poster`) is
caught once and converted to a structured 500; an exception from
`get_available_themes` during theme validation is raised outside the
`try` block and propagates out of the handler unconverted. -/
theorem create_map_catch_boundary {Theme Coord : Type}
    (poster : PosterModule Theme Coord) (req : CreateMapRequest) (e : PyExn) :
    (poster.get_available_themes = Except.error e →
      create_map (Except.ok poster) req = Response.unhandled e)
    ∧ (∀ avail, poster.get_available_themes = Except.ok avail →
        themeFound req.theme avail = true →
        runPipeline poster req = Except.error e →
        create_map (Except.ok poster) req =
          Response.httpError 500 (Detail.errTrace e.msg e.trace)) := by
  constructor
  · intro hav
    simp [create_map, hav]
  · intro avail hav hth hrun
    simp [create_map, hav, hth, hrun]

/-- Witness for C5's amended theorem: the uncaught branch at a module
whose theme listing raises, and the caught branch at a module whose
render raises. -/
theorem create_map_catch_boundary_witness :
    create_map (Except.ok posterThemesRaise) reqParis =
      Response.unhandled { msg := "themes dir missing", trace := "Traceback: themes dir missing" }
    ∧ create_map (Except.ok posterRenderFail) reqParis =
      Response.httpError 500 (Detail.errTrace "render failed" "Traceback: render failed") :=
  ⟨(create_map_catch_boundary posterThemesRaise reqParis
      { msg := "themes dir missing", trace := "Traceback: themes dir missing" }).1 rfl,
   (create_map_catch_boundary posterRenderFail reqParis
      { msg := "render failed", trace := "Traceback: render failed" }).2
      ["feature_based", "minimal"] rfl (by decide) rfl⟩

/-- C6 counterexample: the schedule set-A, set-B, render-A, render-B is
a legal interleaving of the two requests, and in it request A (theme
`"feature_based"`) renders having observed request B's theme
`"minimal"`: the theme set by one request is observed by the other
request's rendering call. -/
theorem theme_race_cex :
    [CStep.setA, CStep.setB, CStep.renderA, CStep.renderB] ∈ schedules
    ∧ (execTrace "feature_based" "minimal"
        [CStep.setA, CStep.setB, CStep.renderA, CStep.renderB] initState).observedA
      = some (some "minimal") := by
  constructor
  · decide
  · rfl

/-- C6 amended: over every schedule of the two requests, each render
observes the theme most recently written to the shared global slot: a
request renders with its own theme exactly when the other request's
set step is not interposed between its own set and its render, and
otherwise renders with the other request's theme. -/
theorem theme_race_amended :
    (schedules.all fun steps =>
      ((execTrace "feature_based" "minimal" steps initState).observedA
          == some (some (if interposed CStep.setA CStep.setB CStep.renderA steps
                          then "minimal" else "feature_based")))
      && ((execTrace "feature_based" "minimal" steps initState).observedB
          == some (some (if interposed CStep.setB CStep.setA CStep.renderB steps
                          then "feature_based" else "minimal")))) = true := by
  decide

/-- C7 counterexample: a request whose `city` and `country` are the
empty string passes validation and is processed, refuting the claim
that empty strings are rejected as invalid input. -/
theorem empty_city_accepted_cex :
    parseCreateMapRequest
      { city := FieldVal.val "", country := FieldVal.val "",
        theme := FieldVal.missing, distance := FieldVal.missing,
        format := FieldVal.missing }
      = Except.ok { city := "", country := "", theme := some "feature_based",
                    distance := some 29000, format := some "png" } := rfl

/-- C7 amended: `city` and `country` are required — a missing field or
an explicit `null` fails validation — but no emptiness check exists:
every string value, the empty string included, is accepted verbatim. -/
theorem city_country_required (city country t : String) (n : Int) (f : String) :
    (parseCreateMapRequest
      { city := FieldVal.missing, country := FieldVal.val country,
        theme := FieldVal.val t, distance := FieldVal.val n, format := FieldVal.val f }
      = Except.error ())
    ∧ (parseCreateMapRequest
      { city := FieldVal.null, country := FieldVal.val country,
        theme := FieldVal.val t, distance := FieldVal.val n, format := FieldVal.val f }
      = Except.error ())
    ∧ (parseCreateMapRequest
      { city := FieldVal.val city, country := FieldVal.missing,
        theme := FieldVal.val t, distance := FieldVal.val n, format := FieldVal.val f }
      = Except.error ())
    ∧ (parseCreateMapRequest
      { city := FieldVal.val city, country := FieldVal.null,
        theme := FieldVal.val t, distance := FieldVal.val n, format := FieldVal.val f }
      = Except.error ())
    ∧ (parseCreateMapRequest
      { city := FieldVal.val city, country := FieldVal.val country,
        theme := FieldVal.val t, distance := FieldVal.val n, format := FieldVal.val f }
      = Except.ok { city := city, country := country, theme := some t,
                    distance := some n, format := some f }) :=
  ⟨rfl, rfl, rfl, rfl, rfl⟩

/-- C8 counterexample: a negative `distance` passes validation, refuting
the claim that non-positive distances do not satisfy the data model. -/
theorem nonpositive_distance_accepted_cex :
    parseCreateMapRequest
      { city := FieldVal.val "Paris", country := FieldVal.val "France",
        theme := FieldVal.missing, distance := FieldVal.val (-5),
        format := FieldVal.missing }
      = Except.ok { city := "Paris", country := "France", theme := some "feature_based",
                    distance := some (-5), format := some "png" } := rfl

/-- C8 amended: `distance` is an integer defaulting to `29000` when the
field is omitted, and this layer enforces no bound in either direction:
every integer value — arbitrarily large, zero or negative — is
accepted. -/
theorem distance_unconstrained (city country : String) (n : Int) :
    (parseCreateMapRequest
      { city := FieldVal.val city, country := FieldVal.val country,
        theme := FieldVal.missing, distance := FieldVal.missing,
        format := FieldVal.missing }
      = Except.ok { city := city, country := country, theme := some "feature_based",
                    distance := some 29000, format := some "png" })
    ∧ (parseCreateMapRequest
      { city := FieldVal.val city, country := FieldVal.val country,
        theme := FieldVal.missing, distance := FieldVal.val n,
        format := FieldVal.missing }
      = Except.ok { city := city, country := country, theme := some "feature_based",
                    distance := some n, format := some "png" }) :=
  ⟨rfl, rfl⟩

/-- C9: the root probe takes no input and is the constant payload
`{"message": "Hello World"}`, independent of any other state. -/
theorem root_hello_world : root = { message := "Hello World" } := rfl

/-- C10: the defaults apply only to omitted fields.  A body sending
`theme`, `distance` and `format` as explicit `null` parses to `none` in
each field, while omitting them yields the defaults; and a request whose
parsed theme is `none` is rejected by `create_map` with the 400
invalid-theme error (the membership test of `None` against a list of
theme-name strings never succeeds) rather than falling back to the
default theme. -/
theorem null_theme_rejected {Theme Coord : Type}
    (poster : PosterModule Theme Coord) (avail : List String)
    (city country : String) (d : Option Int) (f : Option String)
    (hav : poster.get_available_themes = Except.ok avail) :
    (parseCreateMapRequest
      { city := FieldVal.val city, country := FieldVal.val country,
        theme := FieldVal.null, distance := FieldVal.null, format := FieldVal.null }
      = Except.ok { city := city, country := country, theme := none,
                    distance := none, format := none })
    ∧ (parseCreateMapRequest
      { city := FieldVal.val city, country := FieldVal.val country,
        theme := FieldVal.missing, distance := FieldVal.missing,
        format := FieldVal.missing }
      = Except.ok { city := city, country := country, theme := some "feature_based",
                    distance := some 29000, format := some "png" })
    ∧ (create_map (Except.ok poster)
        { city := city, country := country, theme := none, distance := d, format := f }
      = Response.httpError 400 (Detail.str
          ("Theme 'None' not found. Available: " ++ String.intercalate ", " avail))) := by
  refine ⟨rfl, rfl, ?_⟩
  simp [create_map, hav, themeFound, pyStr]

/-- Witness for C10 at a concrete module and request. -/
theorem null_theme_rejected_witness :
    create_map (Except.ok posterOK)
      { city := "Paris", country := "France", theme := none,
        distance := none, format := none }
      = Response.httpError 400
          (Detail.str "Theme 'None' not found. Available: feature_based, minimal") := by
  simpa using (null_theme_rejected posterOK ["feature_based", "minimal"]
    "Paris" "France" none none rfl).2.2
